import Mathlib

/-!
Shallow embedding of `scripts/python/populate_geolocation.py`.

Python strings are modelled as lists of characters (`PyStr`); Python's
`str.isdigit` is modelled by `Char.isDigit` over each character.  Python
floats are modelled as rationals (`Rat`): every concrete coordinate in this
development is a finite decimal, and the JSON round trip of finite floats is
exact, so the numeric representation does not affect any claim below.
Python dicts are modelled as insertion-ordered association lists with unique
keys, with assignment updating an existing key in place and appending a new
one at the end.  The network (the Zippopotam.us request together with its
status/parsing handling, lines 116-134) is modelled by an oracle
`api : PyStr -> Option Coord` giving the outcome of one request; the
embedding additionally records whether a request was issued and whether the
rate-limiting sleep ran.
-/

set_option autoImplicit false

namespace Geo

/-- Python `str`, modelled as a list of characters. -/
abbrev PyStr := List Char

/-- A coordinate pair `(latitude, longitude)`, Python floats modelled as rationals. -/
abbrev Coord := Rat × Rat

/-- `zip_code[:5] if zip_code else None` — the normalization used by
`ZipCache.get`/`set`/`has` (lines 87, 94, 100) and by
`fetch_zip_coordinates` (line 112).  The empty string is falsy in Python,
so it normalizes to `none`. -/
def pyNorm (z : PyStr) : Option PyStr :=
  if z = [] then none else some (z.take 5)

/-- Python dict membership-plus-indexing, as one lookup on an association
list: `some v` when the key is present with value `v`, `none` when absent. -/
def lookupKey {β : Type} (k : PyStr) : List (PyStr × β) → Option β
  | [] => none
  | (k', v) :: rest => if k' = k then some v else lookupKey k rest

/-- Python dict assignment `d[k] = v`: overwrite in place if the key is
present, otherwise append at the end. -/
def dictInsert {β : Type} (k : PyStr) (v : β) : List (PyStr × β) → List (PyStr × β)
  | [] => [(k, v)]
  | (k', v') :: rest => if k' = k then (k, v) :: rest else (k', v') :: dictInsert k v rest

/-- The in-memory state of `ZipCache` (line 54): `self.cache`, a dict from
zip strings to `Optional[Tuple[float, float]]` (a `none` value is the
explicit negative marker). -/
structure ZipCache where
  cache : List (PyStr × Option Coord)
deriving DecidableEq

/-- The raw dict lookup `self.cache[zip5]` guarded by `zip5 in self.cache`:
`some v` when an entry (positive or negative) exists, `none` otherwise. -/
def ZipCache.lookupEntry (c : ZipCache) (z5 : PyStr) : Option (Option Coord) :=
  lookupKey z5 c.cache

/-- `ZipCache.get` (lines 85-90): normalize, and if the normalized code is a
key, return the stored value (which may itself be `None`); otherwise return
`None`.  The Python return type is `Optional[Tuple[float, float]]`, so the
two `None`s coincide. -/
def ZipCache.get (c : ZipCache) (z : PyStr) : Option Coord :=
  match pyNorm z with
  | none => none
  | some z5 =>
    match c.lookupEntry z5 with
    | some v => v
    | none => none

/-- `ZipCache.set` (lines 92-96): normalize; if the normalized code is
truthy, assign it in the dict; otherwise do nothing. -/
def ZipCache.set (c : ZipCache) (z : PyStr) (v : Option Coord) : ZipCache :=
  match pyNorm z with
  | none => c
  | some z5 => ⟨dictInsert z5 v c.cache⟩

/-- `ZipCache.has` (lines 98-101): whether an entry (positive or negative)
exists for the normalized code. -/
def ZipCache.has (c : ZipCache) (z : PyStr) : Bool :=
  match pyNorm z with
  | none => false
  | some z5 => (c.lookupEntry z5).isSome

/-- One JSON value of the cache file: either the explicit `null` marker or
an object `{'lat': .., 'lng': ..}` (lines 76-79). -/
inductive JVal where
  | null : JVal
  | coordObj : Rat → Rat → JVal
deriving DecidableEq

/-- The per-entry serialization performed by `ZipCache.save` (lines 75-79):
a positive entry becomes a `{'lat','lng'}` object, a negative entry becomes
an explicit `null`. -/
def saveEntry (v : Option Coord) : JVal :=
  match v with
  | some c => JVal.coordObj c.1 c.2
  | none => JVal.null

/-- `ZipCache.save` (lines 72-83): the serialized key-value document written
to the cache file. -/
def ZipCache.save (c : ZipCache) : List (PyStr × JVal) :=
  c.cache.map (fun p => (p.1, saveEntry p.2))

/-- The per-entry deserialization performed by `ZipCache.load`
(lines 63-67): a truthy value (the coordinate object) becomes a tuple, a
falsy one (`null`) becomes `None`. -/
def loadEntry (j : JVal) : Option Coord :=
  match j with
  | JVal.coordObj lat lng => some (lat, lng)
  | JVal.null => none

/-- `ZipCache.load` on a fresh instance (lines 57-67): rebuild the
in-memory dict from the serialized document. -/
def ZipCache.load (d : List (PyStr × JVal)) : ZipCache :=
  ⟨d.map (fun p => (p.1, loadEntry p.2))⟩

/-- The observable outcome of one `fetch_zip_coordinates` call:
the returned value, whether an HTTP request was issued, and whether the
rate-limiting `time.sleep(delay)` ran. -/
structure FetchResult where
  result : Option Coord
  networkCall : Bool
  delayed : Bool
deriving DecidableEq

/-- `fetch_zip_coordinates` (lines 107-134): normalize to the first 5
characters; if the result is falsy or not digit-only, return `None` with no
sleep and no request; otherwise sleep, issue one request, and return the
oracle's outcome (which already folds in non-200 statuses, empty place
lists, parse failures and exceptions, all of which yield `None`). -/
def fetch_zip_coordinates (api : PyStr → Option Coord) (z : PyStr) : FetchResult :=
  match pyNorm z with
  | none => ⟨none, false, false⟩
  | some z5 =>
    if z5.all Char.isDigit then ⟨api z5, true, true⟩
    else ⟨none, false, false⟩

/-- One row of the target table, restricted to the two columns the script
touches: `ZipCode` and `GeoLocation` (nullable). -/
structure Row where
  zip : PyStr
  geo : Option Coord
deriving DecidableEq

/-- `update_geolocation` (lines 211-221): set `GeoLocation` on every row
whose `ZipCode` equals the given (raw, unnormalized) code and whose
`GeoLocation` is currently `NULL`; return the updated table together with
`cursor.rowcount`, the number of rows changed. -/
def update_geolocation (z : PyStr) (lat lng : Rat) : List Row → List Row × Nat
  | [] => ([], 0)
  | r :: rs =>
    let rest := update_geolocation z lat lng rs
    if r.zip = z ∧ r.geo = none then
      ({ zip := r.zip, geo := some (lat, lng) } :: rest.1, rest.2 + 1)
    else
      (r :: rest.1, rest.2)

/-- The mutable state of the processing loop in `main` (lines 264-295):
cache, table, the five counters, plus three instrumentation fields that
record the calls the loop makes: the list of zip5 codes actually sent over
the network, and how many times `fetch_zip_coordinates` and `ZipCache.set`
were invoked. -/
structure LoopState where
  cache : ZipCache
  rows : List Row
  updated_total : Nat
  found : Nat
  not_found : Nat
  from_cache : Nat
  from_api : Nat
  apiCalls : List PyStr
  resolverCalls : Nat
  setCalls : Nat
deriving DecidableEq

/-- One iteration of the loop (lines 272-290).  `coords = cache.get(z)`;
a returned tuple is always truthy, so `if coords:` is exactly the
`some`/`none` split.  On `some`: count a cache hit and fall through to the
store write.  On `none`: if the cache has a (necessarily negative) entry,
do nothing but count not-found; otherwise call the resolver, store its
result in the cache, count an API attempt, and then branch on the result. -/
def processZip (api : PyStr → Option Coord) (st : LoopState) (z : PyStr) : LoopState :=
  match st.cache.get z with
  | some c =>
    let st1 := { st with from_cache := st.from_cache + 1 }
    let u := update_geolocation z c.1 c.2 st1.rows
    { st1 with rows := u.1, updated_total := st1.updated_total + u.2, found := st1.found + 1 }
  | none =>
    if st.cache.has z then
      { st with not_found := st.not_found + 1 }
    else
      let fr := fetch_zip_coordinates api z
      let st1 := { st with
        cache := st.cache.set z fr.result,
        from_api := st.from_api + 1,
        apiCalls := st.apiCalls ++ (if fr.networkCall then [z.take 5] else []),
        resolverCalls := st.resolverCalls + 1,
        setCalls := st.setCalls + 1 }
      match fr.result with
      | some c =>
        let u := update_geolocation z c.1 c.2 st1.rows
        { st1 with rows := u.1, updated_total := st1.updated_total + u.2, found := st1.found + 1 }
      | none => { st1 with not_found := st1.not_found + 1 }

/-- The whole processing loop (line 272), folding over the candidate list in
discovery order. -/
def runLoop (api : PyStr → Option Coord) (st : LoopState) (zs : List PyStr) : LoopState :=
  zs.foldl (processZip api) st

/-- The loop state at the top of the loop: counters zero, no calls recorded
(lines 266-270). -/
def initState (c : ZipCache) (rows : List Row) : LoopState :=
  ⟨c, rows, 0, 0, 0, 0, 0, [], 0, 0⟩

/-- The observable outcome of the body of `main` after a successful
connection (lines 249-320). -/
structure MainTrace where
  finalState : LoopState
  saveCalled : Bool
  connectionClosed : Bool
  raisedError : Bool
deriving DecidableEq

/-- The `try/finally` body of `main` (lines 249-320), with the store's
schema setup elided (idempotent collaborator calls) and `conn.commit()`
abstracted by a flag saying whether it succeeds.  If the candidate list is
empty, `main` returns early (line 262) before `cache.save()`.  Otherwise
the loop runs, then `conn.commit()` (line 298); only if it succeeds does
control reach `cache.save()` (line 302).  A commit exception propagates:
the `finally` block (lines 317-320) closes the cursor and connection but
does not call `cache.save()`. -/
def mainRun (api : PyStr → Option Coord) (commitOk : Bool)
    (cache0 : ZipCache) (rows0 : List Row) (candidates : List PyStr) : MainTrace :=
  let st0 := initState cache0 rows0
  if candidates = [] then
    { finalState := st0, saveCalled := false, connectionClosed := true, raisedError := false }
  else
    let fin := runLoop api st0 candidates
    if commitOk then
      { finalState := fin, saveCalled := true, connectionClosed := true, raisedError := false }
    else
      { finalState := fin, saveCalled := false, connectionClosed := true, raisedError := true }

/-- The lookup oracle of the spec's scenario: "90210" resolves to
(34.09, -118.41) and every other code (in particular "00000") to no
result. -/
def api4 : PyStr → Option Coord :=
  fun z => if z = "90210".data then some (34.09, -118.41) else none

/-- The spec's scenario run: candidate list `["90210", "00000", "90210"]`
processed from an empty cache (the store is empty; the claim constrains
only calls, statistics and the persisted cache). -/
def run4 : LoopState :=
  runLoop api4 (initState ⟨[]⟩ []) ["90210".data, "00000".data, "90210".data]

/-- The key invariant that actually holds of the cache: every key is a
nonempty string of at most 5 characters. -/
abbrev keysNormLe (c : ZipCache) : Prop :=
  ∀ p ∈ c.cache, p.1 ≠ [] ∧ p.1.length ≤ 5

end Geo

namespace Geo

/-! ### General lemmas about the embedded operations -/

/-- Every pair in `dictInsert k v l` is either the inserted pair or one of
the original pairs. -/
theorem mem_dictInsert {β : Type} {k : PyStr} {v : β} {l : List (PyStr × β)}
    {p : PyStr × β} (h : p ∈ dictInsert k v l) : p = (k, v) ∨ p ∈ l := by
  induction l with
  | nil => simpa [dictInsert] using h
  | cons q rest ih =>
    unfold dictInsert at h
    by_cases hq : q.1 = k
    · simp only [hq, if_pos rfl] at h
      rcases List.mem_cons.mp h with h1 | h1
      · exact Or.inl h1
      · exact Or.inr (List.mem_cons_of_mem q h1)
    · simp only [if_neg hq] at h
      rcases List.mem_cons.mp h with h1 | h1
      · exact Or.inr (h1 ▸ List.mem_cons_self q rest)
      · rcases ih h1 with h2 | h2
        · exact Or.inl h2
        · exact Or.inr (List.mem_cons_of_mem q h2)

/-- A successfully normalized code is nonempty and at most 5 characters. -/
theorem pyNorm_sound {z z5 : PyStr} (h : pyNorm z = some z5) :
    z5 ≠ [] ∧ z5.length ≤ 5 := by
  unfold pyNorm at h
  split at h
  · exact absurd h (by simp)
  · next hz =>
    injection h with h
    subst h
    refine ⟨?_, ?_⟩
    · cases z with
      | nil => exact absurd rfl hz
      | cons a as => simp [List.take]
    · rw [List.length_take]
      exact min_le_left 5 z.length

/-- Shape of one loop iteration on a positive cache hit (line 276): count a
cache hit, write the store, count found; cache and call records untouched. -/
theorem processZip_pos (api : PyStr → Option Coord) (st : LoopState) (z : PyStr) (c : Coord)
    (hg : st.cache.get z = some c) :
    processZip api st z =
      { st with
        from_cache := st.from_cache + 1,
        rows := (update_geolocation z c.1 c.2 st.rows).1,
        updated_total := st.updated_total + (update_geolocation z c.1 c.2 st.rows).2,
        found := st.found + 1 } := by
  unfold processZip
  rw [hg]

/-- Shape of one loop iteration on a negative cache entry (lines 278, 290):
the `elif` guard fails, so only `not_found` is incremented. -/
theorem processZip_neg (api : PyStr → Option Coord) (st : LoopState) (z : PyStr)
    (hg : st.cache.get z = none) (hh : st.cache.has z = true) :
    processZip api st z = { st with not_found := st.not_found + 1 } := by
  unfold processZip
  rw [hg]
  simp [hh]

/-- Shape of one loop iteration on a cache miss whose lookup succeeds
(lines 278-288). -/
theorem processZip_miss_found (api : PyStr → Option Coord) (st : LoopState) (z : PyStr) (c : Coord)
    (hg : st.cache.get z = none) (hh : st.cache.has z = false)
    (hr : (fetch_zip_coordinates api z).result = some c) :
    processZip api st z =
      { st with
        cache := st.cache.set z (some c),
        from_api := st.from_api + 1,
        apiCalls := st.apiCalls ++ (if (fetch_zip_coordinates api z).networkCall then [z.take 5] else []),
        resolverCalls := st.resolverCalls + 1,
        setCalls := st.setCalls + 1,
        rows := (update_geolocation z c.1 c.2 st.rows).1,
        updated_total := st.updated_total + (update_geolocation z c.1 c.2 st.rows).2,
        found := st.found + 1 } := by
  unfold processZip
  rw [hg]
  simp [hh, hr]

/-- Shape of one loop iteration on a cache miss whose lookup fails
(lines 278-282, 290): the negative result is cached and `not_found`
incremented. -/
theorem processZip_miss_notfound (api : PyStr → Option Coord) (st : LoopState) (z : PyStr)
    (hg : st.cache.get z = none) (hh : st.cache.has z = false)
    (hr : (fetch_zip_coordinates api z).result = none) :
    processZip api st z =
      { st with
        cache := st.cache.set z none,
        from_api := st.from_api + 1,
        apiCalls := st.apiCalls ++ (if (fetch_zip_coordinates api z).networkCall then [z.take 5] else []),
        resolverCalls := st.resolverCalls + 1,
        setCalls := st.setCalls + 1,
        not_found := st.not_found + 1 } := by
  unfold processZip
  rw [hg]
  simp [hh, hr]

/-- The per-entry serialization inverts the per-entry deserialization. -/
theorem loadEntry_saveEntry (v : Option Coord) : loadEntry (saveEntry v) = v := by
  cases v <;> rfl

end Geo

namespace Geo

/-! ### C1 — `ZipCache.get` and the negative-entry distinction -/

/-- C1 counterexample: the claim says `get` returns the cached value when an
entry exists and a *distinct* "no entry" signal otherwise, making a cached
negative entry distinguishable from absence through `get`.  In the code
`get` has Python type `Optional[Tuple[float, float]]`: on the cache
`{'00000': None}` the code "00000" has a (negative) entry and "11111" has
none, yet `get` returns the same value `None` for both. -/
theorem C1_counterexample :
    (ZipCache.mk [("00000".data, none)]).has "00000".data = true ∧
    (ZipCache.mk [("00000".data, none)]).has "11111".data = false ∧
    (ZipCache.mk [("00000".data, none)]).get "00000".data
      = (ZipCache.mk [("00000".data, none)]).get "11111".data := by
  decide

/-- C1 (amended): `get` returns the cached coordinate when a positive entry
exists for the normalized code, and `None` both when the entry is negative
and when no entry exists — its result is a flat `Optional<Coordinate>`, so
`get` alone cannot distinguish a cached negative from absence; the `has`
method supplies that distinction, being true exactly when an entry
(positive or negative) exists. -/
theorem C1_get_flat_has_distinguishes (c : ZipCache) (z z5 : PyStr) (lat lng : Rat)
    (h : pyNorm z = some z5) :
    (c.lookupEntry z5 = some (some (lat, lng)) → c.get z = some (lat, lng)) ∧
    (c.lookupEntry z5 = some none → c.get z = none) ∧
    (c.lookupEntry z5 = none → c.get z = none) ∧
    c.has z = (c.lookupEntry z5).isSome := by
  have hhas : c.has z = (c.lookupEntry z5).isSome := by
    simp only [ZipCache.has, h]
  refine ⟨fun he => ?_, fun he => ?_, fun he => ?_, hhas⟩ <;>
    simp only [ZipCache.get, h, he]

/-- C1 witness: the amended theorem applied to a concrete cache holding one
positive and one negative entry. -/
theorem C1_witness :
    pyNorm "90210".data = some "90210".data ∧
    (((ZipCache.mk [("90210".data, some (1, 2)), ("00000".data, none)]).lookupEntry "90210".data
        = some (some (1, 2)) →
      (ZipCache.mk [("90210".data, some (1, 2)), ("00000".data, none)]).get "90210".data
        = some (1, 2)) ∧
     ((ZipCache.mk [("90210".data, some (1, 2)), ("00000".data, none)]).lookupEntry "90210".data
        = some none →
      (ZipCache.mk [("90210".data, some (1, 2)), ("00000".data, none)]).get "90210".data = none) ∧
     ((ZipCache.mk [("90210".data, some (1, 2)), ("00000".data, none)]).lookupEntry "90210".data
        = none →
      (ZipCache.mk [("90210".data, some (1, 2)), ("00000".data, none)]).get "90210".data = none) ∧
     (ZipCache.mk [("90210".data, some (1, 2)), ("00000".data, none)]).has "90210".data
       = ((ZipCache.mk [("90210".data, some (1, 2)), ("00000".data, none)]).lookupEntry
           "90210".data).isSome) :=
  ⟨by decide, C1_get_flat_has_distinguishes _ _ _ 1 2 (by decide)⟩

/-! ### C2 — the resolver's input guard -/

/-- C2 counterexample: the claim says any input that is not exactly 5 digit
characters after normalization gets no network call.  The code only checks
`zip5` truthy and `zip5.isdigit()`: the input "123" normalizes to "123",
which is digit-only but 3 characters long, and the code does issue a
request (and takes the rate-limiting sleep). -/
theorem C2_counterexample :
    ("123".data.take 5).length ≠ 5 ∧
    ("123".data.take 5).all Char.isDigit = true ∧
    (fetch_zip_coordinates (fun _ => none) "123".data).networkCall = true ∧
    (fetch_zip_coordinates (fun _ => none) "123".data).delayed = true := by
  decide

/-- C2 (amended): `fetch_zip_coordinates` returns no result without a
network call and without the rate-limiting sleep exactly when the input is
empty or its first-5-character normalization contains a non-digit; a
nonempty digit-only normalization of any length (even shorter than 5)
proceeds to the network. -/
theorem C2_invalid_no_network (api : PyStr → Option Coord) (z : PyStr)
    (h : z = [] ∨ (z.take 5).all Char.isDigit = false) :
    fetch_zip_coordinates api z = ⟨none, false, false⟩ := by
  unfold fetch_zip_coordinates pyNorm
  rcases h with rfl | hd
  · rfl
  · have hz : z ≠ [] := by
      intro h0
      rw [h0] at hd
      simp at hd
    simp [hz, hd]

/-- C2 witness: the amended theorem applied to the concrete non-digit input
"12a45". -/
theorem C2_witness :
    ("12a45".data = ([] : PyStr) ∨ ("12a45".data.take 5).all Char.isDigit = false) ∧
    fetch_zip_coordinates (fun _ => none) "12a45".data = ⟨none, false, false⟩ :=
  ⟨by decide, C2_invalid_no_network (fun _ => none) "12a45".data (by decide)⟩

/-! ### C3 — the negative-cache-entry branch of the loop -/

/-- C3 counterexample: the claim says a candidate with a negative cache
entry is counted as a cache hit (`from_cache` incremented).  In the code
`from_cache` is incremented only under `if coords:`, and a negative entry
makes `coords` `None`: starting from a cache `{'00000': None}` with all
counters zero, processing "00000" leaves `from_cache` at 0, not 1. -/
theorem C3_counterexample :
    (processZip (fun _ => none)
        (initState (ZipCache.mk [("00000".data, none)]) []) "00000".data).from_cache
      ≠ (initState (ZipCache.mk [("00000".data, none)]) []).from_cache + 1 := by
  decide

/-- C3 (amended): for a candidate whose normalized code has a negative
cache entry, the iteration makes no network call, no resolver call, no
cache write and no store write, and counts the candidate as not-found —
but it does NOT increment `from_cache` (nor `from_api`): the whole state
change is `not_found + 1`. -/
theorem C3_negative_entry_step (api : PyStr → Option Coord) (st : LoopState) (z z5 : PyStr)
    (h1 : pyNorm z = some z5) (h2 : st.cache.lookupEntry z5 = some none) :
    processZip api st z = { st with not_found := st.not_found + 1 } := by
  have hg : st.cache.get z = none := by
    simp only [ZipCache.get, h1, h2]
  have hh : st.cache.has z = true := by
    simp only [ZipCache.has, h1, h2, Option.isSome_some]
  exact processZip_neg api st z hg hh

/-- C3 witness: the amended theorem applied to the concrete negative entry
for "00000". -/
theorem C3_witness :
    pyNorm "00000".data = some "00000".data ∧
    (ZipCache.mk [("00000".data, none)]).lookupEntry "00000".data = some none ∧
    processZip (fun _ => none) (initState (ZipCache.mk [("00000".data, none)]) []) "00000".data
      = { initState (ZipCache.mk [("00000".data, none)]) [] with not_found :=
          (initState (ZipCache.mk [("00000".data, none)]) []).not_found + 1 } :=
  ⟨by decide, by decide,
    C3_negative_entry_step (fun _ => none) (initState (ZipCache.mk [("00000".data, none)]) [])
      "00000".data "00000".data (by decide) (by decide)⟩

end Geo

namespace Geo

/-! ### C4 — the spec's three-candidate scenario -/

/-- C4 counterexample: the claim predicts final statistics of 1 found for
the scenario `["90210", "00000", "90210"]`, but the loop increments `found`
on every iteration that ends with a coordinate — both occurrences of
"90210" count — so the final `found` is 2, not 1. -/
theorem C4_counterexample : run4.found = 2 ∧ run4.found ≠ 1 := by
  decide

/-- C4 (amended): in the scenario, exactly one network call is made for
"90210" (the second occurrence is a cache hit) and one for "00000" (cached
as negative); the final statistics show 2 lookups (`from_api`), 1 cache
hit, 2 found, 1 not-found, and the persisted cache holds exactly 2
entries — "90210" positive and "00000" an explicit negative. -/
theorem C4_scenario :
    run4.apiCalls = ["90210".data, "00000".data] ∧
    run4.from_api = 2 ∧
    run4.from_cache = 1 ∧
    run4.found = 2 ∧
    run4.not_found = 1 ∧
    (ZipCache.save run4.cache).length = 2 ∧
    run4.cache.lookupEntry "90210".data = some (some (34.09, -118.41)) ∧
    run4.cache.lookupEntry "00000".data = some none :=
  ⟨by decide, by decide, by decide, by decide, by decide, by decide, by rfl, by rfl⟩

/-! ### C5 — the cache key invariant -/

/-- C5 counterexample: the claim says every key ever present in the cache
is exactly 5 characters and digit-only.  `ZipCache.set` truncates to at
most 5 characters but never pads or validates: setting the code "abc"
inserts the 3-character non-digit key "abc". -/
theorem C5_counterexample :
    ((ZipCache.mk []).set "abc".data none).cache = [("abc".data, none)] ∧
    ("abc".data.length = 5) = False := by
  decide

/-- Keys inserted by `ZipCache.set` are normalized inputs, hence nonempty
and at most 5 characters. -/
theorem keysNormLe_set {c : ZipCache} (h : keysNormLe c) (z : PyStr) (v : Option Coord) :
    keysNormLe (c.set z v) := by
  unfold ZipCache.set
  cases hn : pyNorm z with
  | none => exact h
  | some z5 =>
    intro p hp
    rcases mem_dictInsert hp with rfl | hp'
    · exact pyNorm_sound hn
    · exact h p hp'

/-- One loop iteration preserves the key bound: the only cache write is the
`ZipCache.set` on a miss. -/
theorem keysNormLe_processZip (api : PyStr → Option Coord) {st : LoopState} (z : PyStr)
    (h : keysNormLe st.cache) : keysNormLe (processZip api st z).cache := by
  cases hg : st.cache.get z with
  | some c =>
    rw [processZip_pos api st z c hg]
    exact h
  | none =>
    cases hh : st.cache.has z with
    | true =>
      rw [processZip_neg api st z hg hh]
      exact h
    | false =>
      cases hr : (fetch_zip_coordinates api z).result with
      | some c =>
        rw [processZip_miss_found api st z c hg hh hr]
        exact keysNormLe_set h z (some c)
      | none =>
        rw [processZip_miss_notfound api st z hg hh hr]
        exact keysNormLe_set h z none

/-- The whole loop preserves the key bound. -/
theorem keysNormLe_runLoop (api : PyStr → Option Coord) (zs : List PyStr) :
    ∀ st : LoopState, keysNormLe st.cache → keysNormLe (runLoop api st zs).cache := by
  induction zs with
  | nil => exact fun st h => h
  | cons z zs ih => exact fun st h => ih (processZip api st z) (keysNormLe_processZip api z h)

/-- C5 (amended): the invariant that `ZipCache.set` and every cache write
of the processing loop preserve is that each key is a *nonempty* string of
*at most* 5 characters (empty inputs never create an entry); neither
exactly-5-characters nor digit-only is guaranteed. -/
theorem C5_keys_bounded (api : PyStr → Option Coord) (c : ZipCache) (z : PyStr)
    (v : Option Coord) (st : LoopState) (zs : List PyStr)
    (h1 : keysNormLe c) (h2 : keysNormLe st.cache) :
    keysNormLe (c.set z v) ∧ keysNormLe (runLoop api st zs).cache :=
  ⟨keysNormLe_set h1 z v, keysNormLe_runLoop api zs st h2⟩

/-- C5 witness: the amended invariant applied to a concrete cache, a
concrete short write and a concrete loop run. -/
theorem C5_witness :
    keysNormLe (ZipCache.mk [("90210".data, some (1, 2))]) ∧
    keysNormLe (initState (ZipCache.mk [("90210".data, some (1, 2))]) []).cache ∧
    (keysNormLe ((ZipCache.mk [("90210".data, some (1, 2))]).set "abc".data none) ∧
     keysNormLe (runLoop (fun _ => none)
       (initState (ZipCache.mk [("90210".data, some (1, 2))]) [])
       ["123".data, "00000".data]).cache) :=
  ⟨by decide, by decide,
    C5_keys_bounded (fun _ => none) (ZipCache.mk [("90210".data, some (1, 2))]) "abc".data none
      (initState (ZipCache.mk [("90210".data, some (1, 2))]) [])
      ["123".data, "00000".data] (by decide) (by decide)⟩

/-! ### C6 — entries are never overwritten within a run -/

/-- C6: for a candidate whose normalized code already has a cache entry
(positive or negative), the iteration leaves the cache unchanged, never
invokes the resolver, and never invokes `ZipCache.set`: a cache entry, once
present, is not overwritten by a later lookup in the same run. -/
theorem C6_no_overwrite (api : PyStr → Option Coord) (st : LoopState) (z : PyStr)
    (h : st.cache.has z = true) :
    (processZip api st z).cache = st.cache ∧
    (processZip api st z).resolverCalls = st.resolverCalls ∧
    (processZip api st z).setCalls = st.setCalls := by
  cases hg : st.cache.get z with
  | some c =>
    rw [processZip_pos api st z c hg]
    exact ⟨rfl, rfl, rfl⟩
  | none =>
    rw [processZip_neg api st z hg h]
    exact ⟨rfl, rfl, rfl⟩

/-- C6 witness: the theorem applied to a cache already holding a positive
entry for "90210". -/
theorem C6_witness :
    (initState (ZipCache.mk [("90210".data, some (1, 2))]) []).cache.has "90210".data = true ∧
    ((processZip (fun _ => none)
        (initState (ZipCache.mk [("90210".data, some (1, 2))]) []) "90210".data).cache
      = (initState (ZipCache.mk [("90210".data, some (1, 2))]) []).cache ∧
     (processZip (fun _ => none)
        (initState (ZipCache.mk [("90210".data, some (1, 2))]) []) "90210".data).resolverCalls
      = (initState (ZipCache.mk [("90210".data, some (1, 2))]) []).resolverCalls ∧
     (processZip (fun _ => none)
        (initState (ZipCache.mk [("90210".data, some (1, 2))]) []) "90210".data).setCalls
      = (initState (ZipCache.mk [("90210".data, some (1, 2))]) []).setCalls) :=
  ⟨by decide,
    C6_no_overwrite (fun _ => none)
      (initState (ZipCache.mk [("90210".data, some (1, 2))]) []) "90210".data (by decide)⟩

/-! ### C7 — cache persistence on late-stage failure -/

/-- C7: the code contradicts the spec's persistence requirement.
`cache.save()` (line 302) sits after `conn.commit()` (line 298) inside the
`try` block, and the `finally` block (lines 317-320) only closes the cursor
and connection.  On the normal path save runs after a successful commit
(first conjunct), but when commit raises after partial processing the
exception propagates past `cache.save()`: the run below performed one
lookup and filled the cache, the error propagates, the connection is
closed — and the cache is never persisted (last conjunct), losing the
resolved lookup. -/
theorem C7_save_skipped_on_commit_failure :
    (mainRun (fun _ => some (1, 2)) true ⟨[]⟩ [] ["90210".data]).saveCalled = true ∧
    (mainRun (fun _ => some (1, 2)) false ⟨[]⟩ [] ["90210".data]).finalState.from_api = 1 ∧
    (mainRun (fun _ => some (1, 2)) false ⟨[]⟩ [] ["90210".data]).finalState.cache.cache ≠ [] ∧
    (mainRun (fun _ => some (1, 2)) false ⟨[]⟩ [] ["90210".data]).raisedError = true ∧
    (mainRun (fun _ => some (1, 2)) false ⟨[]⟩ [] ["90210".data]).connectionClosed = true ∧
    (mainRun (fun _ => some (1, 2)) false ⟨[]⟩ [] ["90210".data]).saveCalled = false := by
  decide

/-! ### C8 — cache round trip -/

/-- C8: saving any in-memory cache and loading the document into a fresh
cache reconstructs an identical mapping; a negative entry is serialized as
the explicit `null` marker, so negative entries and absent keys survive the
round trip distinctly. -/
theorem C8_roundtrip (c : ZipCache) :
    ZipCache.load c.save = c ∧ saveEntry none = JVal.null := by
  constructor
  · unfold ZipCache.load ZipCache.save
    rw [List.map_map]
    cases c with
    | mk l =>
      congr 1
      induction l with
      | nil => rfl
      | cons p rest ih => simp [Function.comp, loadEntry_saveEntry, ih]
  · rfl

/-! ### C9 — idempotence of the store update -/

/-- C9: `update_geolocation` writes only rows whose geolocation is still
null, so a second call with the same postal code and coordinate changes no
row and reports `rowcount = 0`. -/
theorem C9_update_idempotent (z : PyStr) (lat lng : Rat) (rows : List Row) :
    update_geolocation z lat lng (update_geolocation z lat lng rows).1
      = ((update_geolocation z lat lng rows).1, 0) := by
  induction rows with
  | nil => rfl
  | cons r rs ih =>
    by_cases hc : r.zip = z ∧ r.geo = none
    · have hfalse : ¬ (r.zip = z ∧ (some (lat, lng) : Option Coord) = none) := by simp
      simp only [update_geolocation, if_pos hc, if_neg hfalse, ih]
    · simp only [update_geolocation, if_neg hc, ih]

/-! ### C10 — loop statistics invariant -/

/-- Each iteration increments exactly one of `found`/`not_found` and at
most one of `from_cache`/`from_api`. -/
theorem processZip_step_counts (api : PyStr → Option Coord) (st : LoopState) (z : PyStr) :
    (((processZip api st z).found = st.found + 1 ∧ (processZip api st z).not_found = st.not_found)
      ∨ ((processZip api st z).found = st.found
          ∧ (processZip api st z).not_found = st.not_found + 1)) ∧
    (((processZip api st z).from_cache = st.from_cache + 1
        ∧ (processZip api st z).from_api = st.from_api)
      ∨ ((processZip api st z).from_cache = st.from_cache
          ∧ (processZip api st z).from_api = st.from_api + 1)
      ∨ ((processZip api st z).from_cache = st.from_cache
          ∧ (processZip api st z).from_api = st.from_api)) := by
  cases hg : st.cache.get z with
  | some c =>
    rw [processZip_pos api st z c hg]
    exact ⟨Or.inl ⟨rfl, rfl⟩, Or.inl ⟨rfl, rfl⟩⟩
  | none =>
    cases hh : st.cache.has z with
    | true =>
      rw [processZip_neg api st z hg hh]
      exact ⟨Or.inr ⟨rfl, rfl⟩, Or.inr (Or.inr ⟨rfl, rfl⟩)⟩
    | false =>
      cases hr : (fetch_zip_coordinates api z).result with
      | some c =>
        rw [processZip_miss_found api st z c hg hh hr]
        exact ⟨Or.inl ⟨rfl, rfl⟩, Or.inr (Or.inl ⟨rfl, rfl⟩)⟩
      | none =>
        rw [processZip_miss_notfound api st z hg hh hr]
        exact ⟨Or.inr ⟨rfl, rfl⟩, Or.inr (Or.inl ⟨rfl, rfl⟩)⟩

/-- After the loop, `found + not_found` has grown by exactly the number of
candidates processed. -/
theorem runLoop_found_sum (api : PyStr → Option Coord) (zs : List PyStr) :
    ∀ st : LoopState,
      (runLoop api st zs).found + (runLoop api st zs).not_found
        = st.found + st.not_found + zs.length := by
  induction zs with
  | nil => intro st; rfl
  | cons z zs ih =>
    intro st
    have hrun : runLoop api st (z :: zs) = runLoop api (processZip api st z) zs := rfl
    rw [hrun, ih (processZip api st z), List.length_cons]
    rcases (processZip_step_counts api st z).1 with ⟨h1, h2⟩ | ⟨h1, h2⟩ <;>
      rw [h1, h2] <;> omega

/-- After the loop, `from_cache + from_api` has grown by at most the number
of candidates processed. -/
theorem runLoop_api_le (api : PyStr → Option Coord) (zs : List PyStr) :
    ∀ st : LoopState,
      (runLoop api st zs).from_cache + (runLoop api st zs).from_api
        ≤ st.from_cache + st.from_api + zs.length := by
  induction zs with
  | nil => intro st; simp [runLoop]
  | cons z zs ih =>
    intro st
    have hrun : runLoop api st (z :: zs) = runLoop api (processZip api st z) zs := rfl
    rw [hrun, List.length_cons]
    have h := ih (processZip api st z)
    rcases (processZip_step_counts api st z).2 with ⟨h1, h2⟩ | ⟨h1, h2⟩ | ⟨h1, h2⟩ <;>
      rw [h1, h2] at h <;> omega

/-- C10: every iteration increments exactly one of `found`/`not_found` and
at most one of `from_cache`/`from_api`; hence, over the loop, the final
`found + not_found` exceeds the initial value by exactly the number of
candidates (so from the all-zero initial state it equals the discovery
count) and `from_cache + from_api` grows by at most that number. -/
theorem C10_loop_statistics (api : PyStr → Option Coord) (st : LoopState) (z : PyStr)
    (zs : List PyStr) :
    (((processZip api st z).found = st.found + 1 ∧ (processZip api st z).not_found = st.not_found)
      ∨ ((processZip api st z).found = st.found
          ∧ (processZip api st z).not_found = st.not_found + 1)) ∧
    (((processZip api st z).from_cache = st.from_cache + 1
        ∧ (processZip api st z).from_api = st.from_api)
      ∨ ((processZip api st z).from_cache = st.from_cache
          ∧ (processZip api st z).from_api = st.from_api + 1)
      ∨ ((processZip api st z).from_cache = st.from_cache
          ∧ (processZip api st z).from_api = st.from_api)) ∧
    (runLoop api st zs).found + (runLoop api st zs).not_found
      = st.found + st.not_found + zs.length ∧
    (runLoop api st zs).from_cache + (runLoop api st zs).from_api
      ≤ st.from_cache + st.from_api + zs.length :=
  ⟨(processZip_step_counts api st z).1, (processZip_step_counts api st z).2,
    runLoop_found_sum api zs st, runLoop_api_le api zs st⟩

end Geo
